import Mathlib

/-!
Verification of the BondForge package facade (`src/__init__.py`).

The source is a single Python module that, at load time, executes a
straight-line sequence of nine statements: five assignments of string
metadata constants, three `from <module> import <name>` statements that
bind one class each from a sibling collaborator module, and one
assignment of the export list `__all__`.

We embed this load sequence shallowly: a `PyValue` datatype for the
values the module binds, an association-list namespace, a statement
language `Stmt` (assignment, from-import, and an arbitrary
process-state effect, so that effect-freeness of the facade is a fact
about its statement list rather than a fact about the language), and a
small interpreter.  Collaborator modules are not part of the supplied
source, so they are abstracted as a `ModuleEnv`: a map from module name
to either a load error or a loaded namespace, together with the error
the from-import machinery raises when a loaded module lacks the
requested symbol.  The process state outside the package namespace is
an opaque type `ω` threaded through the interpreter.  The module cache
(`sys.modules`) is modelled as an association list from package name to
namespace, consulted and filled by `pkgImport`.
-/

set_option autoImplicit false

namespace BondForge

/-- Values the facade binds: string literals, opaque class references
(identified by defining module and class name), and lists of strings
(for `__all__`). -/
inductive PyValue where
  | str : String → PyValue
  | pyClass : String → String → PyValue
  | strList : List String → PyValue
  deriving DecidableEq

/-- A module namespace: an association list from names to values.
Later bindings are consed to the front. -/
abbrev NS := List (String × PyValue)

/-- First-match association-list lookup (Python dict lookup, given that
`bindName` conses rebindings to the front). -/
def lookupA {α : Type} : List (String × α) → String → Option α
  | [], _ => none
  | (k, v) :: rest, n => if n = k then some v else lookupA rest n

/-- Bind a name in a namespace. -/
def bindName (ns : NS) (n : String) (v : PyValue) : NS := (n, v) :: ns

/-- The environment of collaborator modules: `load` returns either the
collaborator's load-time error or its namespace; `attrError` is the
error the from-import machinery raises when a successfully loaded
module does not define the requested symbol. -/
structure ModuleEnv (ε : Type) where
  load : String → Except ε NS
  attrError : String → String → ε

/-- Statements of the module body.  `assign` binds a literal value,
`fromImport m s` executes `from .m import s`, and `sideEffect` stands
for any statement whose effect is on process state outside the module
namespace (the facade's body contains none, which is a provable fact
about `bondforgeStmts`). -/
inductive Stmt (ω : Type) where
  | assign : String → PyValue → Stmt ω
  | fromImport : String → String → Stmt ω
  | sideEffect : (ω → ω) → Stmt ω

/-- A statement is effect-free when it is not a `sideEffect`. -/
def Stmt.isEffectFree {ω : Type} : Stmt ω → Bool
  | .sideEffect _ => false
  | _ => true

/-- Execute one statement on (namespace, outside process state).
A from-import first loads the collaborator module, propagating its
error unchanged on failure; if the module loads but lacks the symbol,
the import machinery's `attrError` is raised. -/
def execStmt {ε ω : Type} (env : ModuleEnv ε) (st : NS × ω) : Stmt ω → Except ε (NS × ω)
  | .assign n v => .ok (bindName st.1 n v, st.2)
  | .fromImport m s =>
    match env.load m with
    | .error e => .error e
    | .ok mns =>
      match lookupA mns s with
      | some v => .ok (bindName st.1 s v, st.2)
      | none => .error (env.attrError m s)
  | .sideEffect f => .ok (st.1, f st.2)

/-- Execute a statement list in order, stopping at the first error. -/
def execStmts {ε ω : Type} (env : ModuleEnv ε) (st : NS × ω) : List (Stmt ω) → Except ε (NS × ω)
  | [] => .ok st
  | s :: rest =>
    match execStmt env st s with
    | .error e => .error e
    | .ok st' => execStmts env st' rest

/-- Fuel-indexed variant of `execStmts`: `none` means the fuel ran out
before the statement list was exhausted.  Used to show the load
terminates within exactly as many steps as it has statements. -/
def execStmtsFuel {ε ω : Type} (env : ModuleEnv ε) :
    Nat → NS × ω → List (Stmt ω) → Option (Except ε (NS × ω))
  | _, st, [] => some (.ok st)
  | 0, _, _ :: _ => none
  | fuel + 1, st, s :: rest =>
    match execStmt env st s with
    | .error e => some (.error e)
    | .ok st' => execStmtsFuel env fuel st' rest

/-- Variant of `execStmts` that, on failure, also returns the state
reached just before the failing statement, so that we can speak about
which names are bound when a from-import fails. -/
def execStmtsUpTo {ε ω : Type} (env : ModuleEnv ε) (st : NS × ω) :
    List (Stmt ω) → (NS × ω) × Option ε
  | [] => (st, none)
  | s :: rest =>
    match execStmt env st s with
    | .error e => (st, some e)
    | .ok st' => execStmtsUpTo env st' rest

/-- The module body of `src/__init__.py`, statement by statement in
source order. -/
def bondforgeStmts {ω : Type} : List (Stmt ω) :=
  [ .assign "__version__" (.str "1.0.0"),
    .assign "__author__" (.str "Ayeh Bolouki"),
    .assign "__email__" (.str "ayehbolouki1988@gmail.com"),
    .assign "__package_name__" (.str "BondForge"),
    .assign "__tagline__" (.str "Forging Insights from Chemical Bonds"),
    .fromImport "interaction_analyzer" "ProteinInteractionAnalyzer",
    .fromImport "extended_interaction_analyzer" "ExtendedProteinInteractionAnalyzer",
    .fromImport "interaction_visualizer" "InteractionVisualizer",
    .assign "__all__" (.strList ["ProteinInteractionAnalyzer",
                                 "ExtendedProteinInteractionAnalyzer",
                                 "InteractionVisualizer"]) ]

/-- Loading the BondForge package: execute its module body on an empty
namespace, threading the outside process state `w`. -/
def loadBondForge {ε ω : Type} (env : ModuleEnv ε) (w : ω) : Except ε (NS × ω) :=
  execStmts env ([], w) bondforgeStmts

/-- Loading the BondForge package, keeping the state reached at the
moment of failure. -/
def loadBondForgeUpTo {ε ω : Type} (env : ModuleEnv ε) (w : ω) : (NS × ω) × Option ε :=
  execStmtsUpTo env ([], w) bondforgeStmts

/-- The namespace a successful load produces, as a function of the
three imported class values (most recent binding first). -/
def finalNS (v₁ v₂ v₃ : PyValue) : NS :=
  [("__all__", .strList ["ProteinInteractionAnalyzer",
                         "ExtendedProteinInteractionAnalyzer",
                         "InteractionVisualizer"]),
   ("InteractionVisualizer", v₃),
   ("ExtendedProteinInteractionAnalyzer", v₂),
   ("ProteinInteractionAnalyzer", v₁),
   ("__tagline__", .str "Forging Insights from Chemical Bonds"),
   ("__package_name__", .str "BondForge"),
   ("__email__", .str "ayehbolouki1988@gmail.com"),
   ("__author__", .str "Ayeh Bolouki"),
   ("__version__", .str "1.0.0")]

/-- The namespace holding only the five metadata constants, i.e. the
state just before the first from-import runs (most recent binding
first). -/
def metadataNS : NS :=
  [("__tagline__", .str "Forging Insights from Chemical Bonds"),
   ("__package_name__", .str "BondForge"),
   ("__email__", .str "ayehbolouki1988@gmail.com"),
   ("__author__", .str "Ayeh Bolouki"),
   ("__version__", .str "1.0.0")]

/-- The names of the five metadata constants. -/
def metadataNames : List String :=
  ["__version__", "__author__", "__email__", "__package_name__", "__tagline__"]

/-- The list assigned to `__all__`. -/
def allList : List String :=
  ["ProteinInteractionAnalyzer", "ExtendedProteinInteractionAnalyzer", "InteractionVisualizer"]

/-- The names a star-import binds: the entries of `__all__` when the
module defines one (as the facade does), otherwise every name that does
not start with an underscore. -/
def starImportNames (ns : NS) : List String :=
  match lookupA ns "__all__" with
  | some (.strList l) => l
  | _ => (ns.map Prod.fst).filter (fun n => !n.startsWith "_")

/-- The process module cache (`sys.modules`), keyed by package name. -/
abbrev Cache := List (String × NS)

/-- One `import bondforge` in a running process: a cache hit returns
the cached namespace and changes nothing; a miss runs the module body
and, on success, caches the resulting namespace. -/
def pkgImport {ε ω : Type} (env : ModuleEnv ε) (cache : Cache) (w : ω) :
    Except ε (NS × Cache × ω) :=
  match lookupA cache "BondForge" with
  | some ns => .ok (ns, cache, w)
  | none =>
    match loadBondForge env w with
    | .error e => .error e
    | .ok (ns, w') => .ok (ns, ("BondForge", ns) :: cache, w')

/-- `k + 1` successive imports, returning the last result (or the first
error). -/
def pkgImportSeq {ε ω : Type} (env : ModuleEnv ε) : Nat → Cache → ω → Except ε (NS × Cache × ω)
  | 0, cache, w => pkgImport env cache w
  | k + 1, cache, w =>
    match pkgImport env cache w with
    | .error e => .error e
    | .ok (_, cache', w') => pkgImportSeq env k cache' w'

/-- Modelled from the spec: the three collaborator modules
(`interaction_analyzer`, `extended_interaction_analyzer`,
`interaction_visualizer`) are not part of the supplied source; the spec
states that the three exported names are "all defined in unseen
external modules".  An environment satisfies `DefinesSymbols` when each
collaborator that loads successfully does define its advertised
class. -/
def DefinesSymbols {ε : Type} (env : ModuleEnv ε) : Prop :=
  (∀ mns, env.load "interaction_analyzer" = .ok mns →
    (lookupA mns "ProteinInteractionAnalyzer").isSome) ∧
  (∀ mns, env.load "extended_interaction_analyzer" = .ok mns →
    (lookupA mns "ExtendedProteinInteractionAnalyzer").isSome) ∧
  (∀ mns, env.load "interaction_visualizer" = .ok mns →
    (lookupA mns "InteractionVisualizer").isSome)

/-! Concrete collaborator environments, used to witness the theorems on
concrete inputs.  `sampleEnv` is a healthy environment in which each
collaborator module loads and defines exactly its advertised class;
`failEnv1` and `failEnv2` make the first, respectively the second,
collaborator fail to load. -/

/-- Namespace of a healthy `interaction_analyzer` module. -/
def analyzerNS : NS :=
  [("ProteinInteractionAnalyzer", .pyClass "interaction_analyzer" "ProteinInteractionAnalyzer")]

/-- Namespace of a healthy `extended_interaction_analyzer` module. -/
def extendedNS : NS :=
  [("ExtendedProteinInteractionAnalyzer",
    .pyClass "extended_interaction_analyzer" "ExtendedProteinInteractionAnalyzer")]

/-- Namespace of a healthy `interaction_visualizer` module. -/
def visualizerNS : NS :=
  [("InteractionVisualizer", .pyClass "interaction_visualizer" "InteractionVisualizer")]

/-- A healthy collaborator environment. -/
def sampleEnv : ModuleEnv String where
  load m :=
    if m = "interaction_analyzer" then .ok analyzerNS
    else if m = "extended_interaction_analyzer" then .ok extendedNS
    else if m = "interaction_visualizer" then .ok visualizerNS
    else .error ("ModuleNotFoundError: " ++ m)
  attrError m s := "ImportError: cannot " ++ s ++ " from " ++ m

/-- The namespace a load against `sampleEnv` produces. -/
def sampleNS : NS :=
  finalNS (.pyClass "interaction_analyzer" "ProteinInteractionAnalyzer")
    (.pyClass "extended_interaction_analyzer" "ExtendedProteinInteractionAnalyzer")
    (.pyClass "interaction_visualizer" "InteractionVisualizer")

/-- Like `sampleEnv`, but the first collaborator fails to load. -/
def failEnv1 : ModuleEnv String where
  load m := if m = "interaction_analyzer" then .error "boom1" else sampleEnv.load m
  attrError := sampleEnv.attrError

/-- Like `sampleEnv`, but the second collaborator fails to load. -/
def failEnv2 : ModuleEnv String where
  load m := if m = "extended_interaction_analyzer" then .error "boom2" else sampleEnv.load m
  attrError := sampleEnv.attrError

/-! Helper lemmas shared by the claim theorems. -/

/-- When all three collaborators load and define their symbol, the
load succeeds with namespace `finalNS` and unchanged process state. -/
theorem loadBondForge_run {ε ω : Type} {env : ModuleEnv ε} (w : ω)
    {mns₁ v₁ mns₂ v₂ mns₃ v₃}
    (h₁ : env.load "interaction_analyzer" = .ok mns₁)
    (hv₁ : lookupA mns₁ "ProteinInteractionAnalyzer" = some v₁)
    (h₂ : env.load "extended_interaction_analyzer" = .ok mns₂)
    (hv₂ : lookupA mns₂ "ExtendedProteinInteractionAnalyzer" = some v₂)
    (h₃ : env.load "interaction_visualizer" = .ok mns₃)
    (hv₃ : lookupA mns₃ "InteractionVisualizer" = some v₃) :
    loadBondForge env w = .ok (finalNS v₁ v₂ v₃, w) := by
  simp [loadBondForge, bondforgeStmts, execStmts, execStmt, bindName, finalNS,
    h₁, hv₁, h₂, hv₂, h₃, hv₃]

/-- A successful load determines everything: each collaborator loaded,
each symbol was found, the resulting namespace is `finalNS` of the
three class values, and the outside process state is unchanged. -/
theorem loadBondForge_ok {ε ω : Type} {env : ModuleEnv ε} {w : ω} {ns : NS} {w' : ω}
    (h : loadBondForge env w = .ok (ns, w')) :
    ∃ mns₁ v₁ mns₂ v₂ mns₃ v₃,
      env.load "interaction_analyzer" = .ok mns₁ ∧
      lookupA mns₁ "ProteinInteractionAnalyzer" = some v₁ ∧
      env.load "extended_interaction_analyzer" = .ok mns₂ ∧
      lookupA mns₂ "ExtendedProteinInteractionAnalyzer" = some v₂ ∧
      env.load "interaction_visualizer" = .ok mns₃ ∧
      lookupA mns₃ "InteractionVisualizer" = some v₃ ∧
      ns = finalNS v₁ v₂ v₃ ∧ w' = w := by
  cases h₁ : env.load "interaction_analyzer" with
  | error e => simp [loadBondForge, bondforgeStmts, execStmts, execStmt, h₁] at h
  | ok mns₁ =>
    cases hv₁ : lookupA mns₁ "ProteinInteractionAnalyzer" with
    | none => simp [loadBondForge, bondforgeStmts, execStmts, execStmt, h₁, hv₁] at h
    | some v₁ =>
      cases h₂ : env.load "extended_interaction_analyzer" with
      | error e => simp [loadBondForge, bondforgeStmts, execStmts, execStmt, h₁, hv₁, h₂] at h
      | ok mns₂ =>
        cases hv₂ : lookupA mns₂ "ExtendedProteinInteractionAnalyzer" with
        | none => simp [loadBondForge, bondforgeStmts, execStmts, execStmt, h₁, hv₁, h₂, hv₂] at h
        | some v₂ =>
          cases h₃ : env.load "interaction_visualizer" with
          | error e =>
            simp [loadBondForge, bondforgeStmts, execStmts, execStmt, h₁, hv₁, h₂, hv₂, h₃] at h
          | ok mns₃ =>
            cases hv₃ : lookupA mns₃ "InteractionVisualizer" with
            | none =>
              simp [loadBondForge, bondforgeStmts, execStmts, execStmt, h₁, hv₁, h₂, hv₂, h₃, hv₃] at h
            | some v₃ =>
              rw [loadBondForge_run w h₁ hv₁ h₂ hv₂ h₃ hv₃] at h
              injection h with h'
              exact ⟨mns₁, v₁, mns₂, v₂, mns₃, v₃, rfl, hv₁, rfl, hv₂, rfl, hv₃,
                (Prod.ext_iff.mp h'.symm).1, (Prod.ext_iff.mp h'.symm).2⟩

/-- Loading against the healthy environment succeeds with `sampleNS`. -/
theorem loadBondForge_sample : loadBondForge sampleEnv () = .ok (sampleNS, ()) := rfl

/-- The healthy environment's collaborators define their symbols. -/
theorem sampleEnv_definesSymbols : DefinesSymbols sampleEnv := by
  refine ⟨fun mns h => ?_, fun mns h => ?_, fun mns h => ?_⟩
  · rw [show sampleEnv.load "interaction_analyzer" = .ok analyzerNS from rfl] at h
    injection h with h
    subst h; rfl
  · rw [show sampleEnv.load "extended_interaction_analyzer" = .ok extendedNS from rfl] at h
    injection h with h
    subst h; rfl
  · rw [show sampleEnv.load "interaction_visualizer" = .ok visualizerNS from rfl] at h
    injection h with h
    subst h; rfl

/-- After a successful import the cache maps the package name to the
returned namespace (whether the import was a hit or a miss). -/
theorem pkgImport_ok_lookup {ε ω : Type} {env : ModuleEnv ε} {cache : Cache} {w : ω}
    {ns : NS} {cache' : Cache} {w' : ω}
    (h : pkgImport env cache w = .ok (ns, cache', w')) :
    lookupA cache' "BondForge" = some ns := by
  unfold pkgImport at h
  cases hc : lookupA cache "BondForge" with
  | some ns₀ =>
    rw [hc] at h
    injection h with h
    simp only [Prod.mk.injEq] at h
    obtain ⟨h₁, h₂, -⟩ := h
    rw [← h₂, hc, h₁]
  | none =>
    rw [hc] at h
    cases hl : loadBondForge env w with
    | error e => rw [hl] at h; exact absurd h (by simp)
    | ok p =>
      obtain ⟨ns₀, w₀⟩ := p
      rw [hl] at h
      injection h with h
      simp only [Prod.mk.injEq] at h
      obtain ⟨h₁, h₂, -⟩ := h
      rw [← h₂]
      simp [lookupA, h₁]

/-- An import against a cache that already holds the package is a pure
cache hit. -/
theorem pkgImport_cached {ε ω : Type} {env : ModuleEnv ε} {cache : Cache} {ns : NS}
    (w : ω) (hc : lookupA cache "BondForge" = some ns) :
    pkgImport env cache w = .ok (ns, cache, w) := by
  unfold pkgImport
  rw [hc]

/-- A first import into an empty cache runs the module body and caches
the resulting namespace. -/
theorem pkgImport_fresh {ε ω : Type} {env : ModuleEnv ε} {w : ω}
    {ns : NS} {cache' : Cache} {w' : ω}
    (h : pkgImport env [] w = .ok (ns, cache', w')) :
    loadBondForge env w = .ok (ns, w') ∧ cache' = [("BondForge", ns)] := by
  simp only [pkgImport, lookupA] at h
  cases hl : loadBondForge env w with
  | error e => rw [hl] at h; exact absurd h (by simp)
  | ok p =>
    obtain ⟨ns₀, w₀⟩ := p
    rw [hl] at h
    injection h with h
    simp only [Prod.mk.injEq] at h
    obtain ⟨h₁, h₂, h₃⟩ := h
    subst h₁; subst h₃
    exact ⟨rfl, h₂.symm⟩

/-! The claim theorems. -/

/-- C1: after a successful load, the version constant holds exactly the
string "1.0.0" and the package-name constant holds exactly the string
"BondForge". -/
theorem C1_metadata_literals {ε ω : Type} (env : ModuleEnv ε) (w : ω) (ns : NS) (w' : ω)
    (h : loadBondForge env w = .ok (ns, w')) :
    lookupA ns "__version__" = some (.str "1.0.0") ∧
    lookupA ns "__package_name__" = some (.str "BondForge") := by
  obtain ⟨_, _, _, _, _, _, _, _, _, _, _, _, hns, _⟩ := loadBondForge_ok h
  subst hns
  exact ⟨rfl, rfl⟩

/-- Witness for C1 at the healthy concrete environment. -/
theorem C1_metadata_literals_witness :
    lookupA sampleNS "__version__" = some (.str "1.0.0") ∧
    lookupA sampleNS "__package_name__" = some (.str "BondForge") :=
  C1_metadata_literals sampleEnv () sampleNS () loadBondForge_sample

/-- C2 as stated is false on the code: besides the three classes and
the five metadata constants, the loaded module also binds the name
`__all__`, so the surface is not limited to those eight names.  Here
the load against the healthy environment succeeds, `__all__` is among
the bound names, and `__all__` is none of the eight names the claim
lists. -/
theorem C2_counterexample :
    loadBondForge sampleEnv () = .ok (sampleNS, ()) ∧
    "__all__" ∈ sampleNS.map Prod.fst ∧
    "__all__" ∉ ["__version__", "__author__", "__email__", "__package_name__", "__tagline__",
                 "ProteinInteractionAnalyzer", "ExtendedProteinInteractionAnalyzer",
                 "InteractionVisualizer"] :=
  ⟨rfl, by decide, by decide⟩

/-- C2 amended: after a successful load, the bound names are exactly
the three classes, the five metadata constants, and the export list
`__all__` — no other name. -/
theorem C2_exact_surface {ε ω : Type} (env : ModuleEnv ε) (w : ω) (ns : NS) (w' : ω)
    (h : loadBondForge env w = .ok (ns, w')) :
    ns.map Prod.fst =
      ["__all__", "InteractionVisualizer", "ExtendedProteinInteractionAnalyzer",
       "ProteinInteractionAnalyzer", "__tagline__", "__package_name__", "__email__",
       "__author__", "__version__"] := by
  obtain ⟨_, _, _, _, _, _, _, _, _, _, _, _, hns, _⟩ := loadBondForge_ok h
  subst hns
  rfl

/-- Witness for the amended C2 at the healthy concrete environment. -/
theorem C2_exact_surface_witness :
    sampleNS.map Prod.fst =
      ["__all__", "InteractionVisualizer", "ExtendedProteinInteractionAnalyzer",
       "ProteinInteractionAnalyzer", "__tagline__", "__package_name__", "__email__",
       "__author__", "__version__"] :=
  C2_exact_surface sampleEnv () sampleNS () loadBondForge_sample

/-- C3: after a successful load, each of the three exported names is
bound at the package root, and the root binding is the very value the
defining submodule binds under that name. -/
theorem C3_root_matches_submodule {ε ω : Type} (env : ModuleEnv ε) (w : ω) (ns : NS) (w' : ω)
    (h : loadBondForge env w = .ok (ns, w')) :
    (∃ mns, env.load "interaction_analyzer" = .ok mns ∧
      (lookupA ns "ProteinInteractionAnalyzer").isSome ∧
      lookupA ns "ProteinInteractionAnalyzer" = lookupA mns "ProteinInteractionAnalyzer") ∧
    (∃ mns, env.load "extended_interaction_analyzer" = .ok mns ∧
      (lookupA ns "ExtendedProteinInteractionAnalyzer").isSome ∧
      lookupA ns "ExtendedProteinInteractionAnalyzer" =
        lookupA mns "ExtendedProteinInteractionAnalyzer") ∧
    (∃ mns, env.load "interaction_visualizer" = .ok mns ∧
      (lookupA ns "InteractionVisualizer").isSome ∧
      lookupA ns "InteractionVisualizer" = lookupA mns "InteractionVisualizer") := by
  obtain ⟨mns₁, v₁, mns₂, v₂, mns₃, v₃, h₁, hv₁, h₂, hv₂, h₃, hv₃, hns, _⟩ := loadBondForge_ok h
  subst hns
  refine ⟨⟨mns₁, h₁, rfl, ?_⟩, ⟨mns₂, h₂, rfl, ?_⟩, ⟨mns₃, h₃, rfl, ?_⟩⟩
  · rw [hv₁]; rfl
  · rw [hv₂]; rfl
  · rw [hv₃]; rfl

/-- Witness for C3 at the healthy concrete environment. -/
theorem C3_root_matches_submodule_witness :
    (∃ mns, sampleEnv.load "interaction_analyzer" = .ok mns ∧
      (lookupA sampleNS "ProteinInteractionAnalyzer").isSome ∧
      lookupA sampleNS "ProteinInteractionAnalyzer" = lookupA mns "ProteinInteractionAnalyzer") ∧
    (∃ mns, sampleEnv.load "extended_interaction_analyzer" = .ok mns ∧
      (lookupA sampleNS "ExtendedProteinInteractionAnalyzer").isSome ∧
      lookupA sampleNS "ExtendedProteinInteractionAnalyzer" =
        lookupA mns "ExtendedProteinInteractionAnalyzer") ∧
    (∃ mns, sampleEnv.load "interaction_visualizer" = .ok mns ∧
      (lookupA sampleNS "InteractionVisualizer").isSome ∧
      lookupA sampleNS "InteractionVisualizer" = lookupA mns "InteractionVisualizer") :=
  C3_root_matches_submodule sampleEnv () sampleNS () loadBondForge_sample

/-- C4: over environments whose collaborators define their symbols, the
package load succeeds exactly when all three collaborator loads
succeed, and it fails with error `e` exactly when the first failing
collaborator load (in source order) fails with that very `e` — the
facade neither handles, transforms, nor raises any error of its own. -/
theorem C4_error_propagation {ε ω : Type} (env : ModuleEnv ε) (w : ω)
    (hdef : DefinesSymbols env) :
    ((∃ r, loadBondForge env w = .ok r) ↔
      ((∃ a, env.load "interaction_analyzer" = .ok a) ∧
       (∃ b, env.load "extended_interaction_analyzer" = .ok b) ∧
       (∃ c, env.load "interaction_visualizer" = .ok c))) ∧
    (∀ e, loadBondForge env w = .error e ↔
      (env.load "interaction_analyzer" = .error e ∨
       ((∃ a, env.load "interaction_analyzer" = .ok a) ∧
        (env.load "extended_interaction_analyzer" = .error e ∨
         ((∃ b, env.load "extended_interaction_analyzer" = .ok b) ∧
          env.load "interaction_visualizer" = .error e))))) := by
  obtain ⟨hd₁, hd₂, hd₃⟩ := hdef
  cases h₁ : env.load "interaction_analyzer" with
  | error e₁ =>
    constructor
    · constructor
      · rintro ⟨r, hr⟩
        simp [loadBondForge, bondforgeStmts, execStmts, execStmt, h₁] at hr
      · rintro ⟨⟨a, ha⟩, -, -⟩
        exact absurd ha (by simp)
    · intro e
      simp [loadBondForge, bondforgeStmts, execStmts, execStmt, h₁]
  | ok mns₁ =>
    obtain ⟨v₁, hv₁⟩ := Option.isSome_iff_exists.mp (hd₁ mns₁ h₁)
    cases h₂ : env.load "extended_interaction_analyzer" with
    | error e₂ =>
      constructor
      · constructor
        · rintro ⟨r, hr⟩
          simp [loadBondForge, bondforgeStmts, execStmts, execStmt, h₁, hv₁, h₂] at hr
        · rintro ⟨-, ⟨b, hb⟩, -⟩
          exact absurd hb (by simp)
      · intro e
        simp [loadBondForge, bondforgeStmts, execStmts, execStmt, h₁, hv₁, h₂]
    | ok mns₂ =>
      obtain ⟨v₂, hv₂⟩ := Option.isSome_iff_exists.mp (hd₂ mns₂ h₂)
      cases h₃ : env.load "interaction_visualizer" with
      | error e₃ =>
        constructor
        · constructor
          · rintro ⟨r, hr⟩
            simp [loadBondForge, bondforgeStmts, execStmts, execStmt, h₁, hv₁, h₂, hv₂, h₃] at hr
          · rintro ⟨-, -, c, hc⟩
            exact absurd hc (by simp)
        · intro e
          simp [loadBondForge, bondforgeStmts, execStmts, execStmt, h₁, hv₁, h₂, hv₂, h₃]
      | ok mns₃ =>
        obtain ⟨v₃, hv₃⟩ := Option.isSome_iff_exists.mp (hd₃ mns₃ h₃)
        constructor
        · exact iff_of_true ⟨(finalNS v₁ v₂ v₃, w), loadBondForge_run w h₁ hv₁ h₂ hv₂ h₃ hv₃⟩
            ⟨⟨mns₁, rfl⟩, ⟨mns₂, rfl⟩, ⟨mns₃, rfl⟩⟩
        · intro e
          rw [loadBondForge_run w h₁ hv₁ h₂ hv₂ h₃ hv₃]
          simp

/-- Witness for C4: at the healthy concrete environment the load
succeeds, as the success direction of C4 demands. -/
theorem C4_error_propagation_witness :
    ∃ r, loadBondForge sampleEnv () = .ok r :=
  (C4_error_propagation sampleEnv () sampleEnv_definesSymbols).1.mpr
    ⟨⟨analyzerNS, rfl⟩, ⟨extendedNS, rfl⟩, ⟨visualizerNS, rfl⟩⟩

/-- C5: importing the package is idempotent.  Once an import has
succeeded — returning namespace `ns`, cache `cache'` and process state
`w'` — every subsequent sequence of imports returns that same `ns` with
cache and process state untouched. -/
theorem C5_idempotent_imports {ε ω : Type} (env : ModuleEnv ε) (cache : Cache) (w : ω)
    (ns : NS) (cache' : Cache) (w' : ω)
    (h : pkgImport env cache w = .ok (ns, cache', w')) :
    ∀ k, pkgImportSeq env k cache' w' = .ok (ns, cache', w') := by
  have hstep : pkgImport env cache' w' = .ok (ns, cache', w') :=
    pkgImport_cached w' (pkgImport_ok_lookup h)
  intro k
  induction k with
  | zero => exact hstep
  | succ k ih => simp [pkgImportSeq, hstep, ih]

/-- Witness for C5: after a first import against the healthy concrete
environment, a further pair of imports returns the same namespace and
leaves the cache and process state unchanged. -/
theorem C5_idempotent_imports_witness :
    pkgImportSeq sampleEnv 1 [("BondForge", sampleNS)] () =
      .ok (sampleNS, [("BondForge", sampleNS)], ()) :=
  C5_idempotent_imports sampleEnv [] () sampleNS [("BondForge", sampleNS)] () rfl 1

/-- C6: a successful load binds names and does nothing else — the
process state outside the package namespace is returned exactly as it
was, and the module body contains no statement with an outside
effect. -/
theorem C6_no_side_effects {ε ω : Type} (env : ModuleEnv ε) (w : ω) (ns : NS) (w' : ω)
    (h : loadBondForge env w = .ok (ns, w')) :
    w' = w ∧ (@bondforgeStmts ω).all Stmt.isEffectFree = true := by
  obtain ⟨_, _, _, _, _, _, _, _, _, _, _, _, _, hw⟩ := loadBondForge_ok h
  exact ⟨hw, rfl⟩

/-- Witness for C6 at the healthy concrete environment, with a
non-trivial process state. -/
theorem C6_no_side_effects_witness :
    (37 : Nat) = 37 ∧ (@bondforgeStmts Nat).all Stmt.isEffectFree = true :=
  C6_no_side_effects sampleEnv 37 sampleNS 37 rfl

/-- C7: the constants and re-exports are initialized once, at the
first load, and no reachable later state changes them: the first load
binds the five metadata constants to their load-time values and the
three classes, and every further sequence of imports returns the very
same namespace, cache and process state. -/
theorem C7_init_once_never_torn_down {ε ω : Type} (env : ModuleEnv ε) (w : ω)
    (ns : NS) (cache' : Cache) (w' : ω)
    (h : pkgImport env [] w = .ok (ns, cache', w')) :
    (lookupA ns "__version__" = some (.str "1.0.0") ∧
     lookupA ns "__author__" = some (.str "Ayeh Bolouki") ∧
     lookupA ns "__email__" = some (.str "ayehbolouki1988@gmail.com") ∧
     lookupA ns "__package_name__" = some (.str "BondForge") ∧
     lookupA ns "__tagline__" = some (.str "Forging Insights from Chemical Bonds") ∧
     (lookupA ns "ProteinInteractionAnalyzer").isSome ∧
     (lookupA ns "ExtendedProteinInteractionAnalyzer").isSome ∧
     (lookupA ns "InteractionVisualizer").isSome) ∧
    ∀ k, pkgImportSeq env k cache' w' = .ok (ns, cache', w') := by
  obtain ⟨hl, hcache⟩ := pkgImport_fresh h
  obtain ⟨_, _, _, _, _, _, _, _, _, _, _, _, hns, _⟩ := loadBondForge_ok hl
  subst hns
  constructor
  · exact ⟨rfl, rfl, rfl, rfl, rfl, rfl, rfl, rfl⟩
  · have hstep : pkgImport env cache' w' = .ok (finalNS _ _ _, cache', w') :=
      pkgImport_cached w' (by rw [hcache]; rfl)
    intro k
    induction k with
    | zero => exact hstep
    | succ k ih => simp [pkgImportSeq, hstep, ih]

/-- Witness for C7 at the healthy concrete environment. -/
theorem C7_init_once_never_torn_down_witness :
    lookupA sampleNS "__version__" = some (.str "1.0.0") ∧
    pkgImportSeq sampleEnv 2 [("BondForge", sampleNS)] () =
      .ok (sampleNS, [("BondForge", sampleNS)], ()) :=
  ⟨(C7_init_once_never_torn_down sampleEnv () sampleNS [("BondForge", sampleNS)] () rfl).1.1,
   (C7_init_once_never_torn_down sampleEnv () sampleNS [("BondForge", sampleNS)] () rfl).2 2⟩

/-- Running a statement list with exactly as much fuel as it has
statements never exhausts the fuel and agrees with the unfueled
interpreter. -/
theorem execStmtsFuel_exact {ε ω : Type} (env : ModuleEnv ε) (stmts : List (Stmt ω)) :
    ∀ st : NS × ω, execStmtsFuel env stmts.length st stmts = some (execStmts env st stmts) := by
  induction stmts with
  | nil => intro st; rfl
  | cons s rest ih =>
    intro st
    simp only [List.length_cons, execStmtsFuel, execStmts]
    cases h : execStmt env st s with
    | error e => rfl
    | ok st' => exact ih st'

/-- C8: the load is a straight-line sequence of name bindings — the
module body contains no statement with an effect outside the namespace,
and executing it terminates within exactly its nine statements of fuel
(given that each collaborator load is itself a terminating function),
agreeing with the unbounded interpreter. -/
theorem C8_straight_line_terminates {ε ω : Type} (env : ModuleEnv ε) (w : ω) :
    (@bondforgeStmts ω).all Stmt.isEffectFree = true ∧
    (@bondforgeStmts ω).length = 9 ∧
    execStmtsFuel env 9 ([], w) bondforgeStmts = some (loadBondForge env w) :=
  ⟨rfl, rfl, execStmtsFuel_exact env bondforgeStmts ([], w)⟩

/-- Witness for C8 at the healthy concrete environment. -/
theorem C8_straight_line_terminates_witness :
    (@bondforgeStmts Unit).all Stmt.isEffectFree = true ∧
    (@bondforgeStmts Unit).length = 9 ∧
    execStmtsFuel sampleEnv 9 ([], ()) bondforgeStmts = some (loadBondForge sampleEnv ()) :=
  C8_straight_line_terminates sampleEnv ()

/-- C9: the five metadata constants are bound before any collaborator
load is attempted, and the three imports run in source order.  If the
k-th import fails, the state at failure holds exactly the metadata
constants plus the classes imported before position k; the remaining
class names and `__all__` are unbound, and the error is the failing
collaborator's. -/
theorem C9_failure_partial_state {ε ω : Type} (env : ModuleEnv ε) (w : ω) (e : ε) :
    (env.load "interaction_analyzer" = .error e →
      loadBondForgeUpTo env w = ((metadataNS, w), some e) ∧
      (∀ n ∈ metadataNames, (lookupA metadataNS n).isSome) ∧
      lookupA metadataNS "ProteinInteractionAnalyzer" = none ∧
      lookupA metadataNS "ExtendedProteinInteractionAnalyzer" = none ∧
      lookupA metadataNS "InteractionVisualizer" = none ∧
      lookupA metadataNS "__all__" = none) ∧
    (∀ mns₁ v₁, env.load "interaction_analyzer" = .ok mns₁ →
      lookupA mns₁ "ProteinInteractionAnalyzer" = some v₁ →
      env.load "extended_interaction_analyzer" = .error e →
      loadBondForgeUpTo env w =
        ((bindName metadataNS "ProteinInteractionAnalyzer" v₁, w), some e) ∧
      lookupA (bindName metadataNS "ProteinInteractionAnalyzer" v₁)
        "ExtendedProteinInteractionAnalyzer" = none ∧
      lookupA (bindName metadataNS "ProteinInteractionAnalyzer" v₁)
        "InteractionVisualizer" = none ∧
      lookupA (bindName metadataNS "ProteinInteractionAnalyzer" v₁) "__all__" = none) ∧
    (∀ mns₁ v₁ mns₂ v₂, env.load "interaction_analyzer" = .ok mns₁ →
      lookupA mns₁ "ProteinInteractionAnalyzer" = some v₁ →
      env.load "extended_interaction_analyzer" = .ok mns₂ →
      lookupA mns₂ "ExtendedProteinInteractionAnalyzer" = some v₂ →
      env.load "interaction_visualizer" = .error e →
      loadBondForgeUpTo env w =
        ((bindName (bindName metadataNS "ProteinInteractionAnalyzer" v₁)
          "ExtendedProteinInteractionAnalyzer" v₂, w), some e) ∧
      lookupA (bindName (bindName metadataNS "ProteinInteractionAnalyzer" v₁)
        "ExtendedProteinInteractionAnalyzer" v₂) "InteractionVisualizer" = none ∧
      lookupA (bindName (bindName metadataNS "ProteinInteractionAnalyzer" v₁)
        "ExtendedProteinInteractionAnalyzer" v₂) "__all__" = none) := by
  refine ⟨fun h₁ => ?_, fun mns₁ v₁ h₁ hv₁ h₂ => ?_, fun mns₁ v₁ mns₂ v₂ h₁ hv₁ h₂ hv₂ h₃ => ?_⟩
  · refine ⟨?_, by decide, rfl, rfl, rfl, rfl⟩
    simp [loadBondForgeUpTo, bondforgeStmts, execStmtsUpTo, execStmt, bindName, metadataNS, h₁]
  · refine ⟨?_, rfl, rfl, rfl⟩
    simp [loadBondForgeUpTo, bondforgeStmts, execStmtsUpTo, execStmt, bindName, metadataNS,
      h₁, hv₁, h₂]
  · refine ⟨?_, rfl, rfl⟩
    simp [loadBondForgeUpTo, bondforgeStmts, execStmtsUpTo, execStmt, bindName, metadataNS,
      h₁, hv₁, h₂, hv₂, h₃]

/-- Witness for C9: the second collaborator fails in `failEnv2`, and
the state at failure holds the metadata constants and the first class
only. -/
theorem C9_failure_partial_state_witness :
    loadBondForgeUpTo failEnv2 () =
      ((bindName metadataNS "ProteinInteractionAnalyzer"
        (.pyClass "interaction_analyzer" "ProteinInteractionAnalyzer"), ()), some "boom2") ∧
    lookupA (bindName metadataNS "ProteinInteractionAnalyzer"
      (.pyClass "interaction_analyzer" "ProteinInteractionAnalyzer"))
      "ExtendedProteinInteractionAnalyzer" = none ∧
    lookupA (bindName metadataNS "ProteinInteractionAnalyzer"
      (.pyClass "interaction_analyzer" "ProteinInteractionAnalyzer"))
      "InteractionVisualizer" = none ∧
    lookupA (bindName metadataNS "ProteinInteractionAnalyzer"
      (.pyClass "interaction_analyzer" "ProteinInteractionAnalyzer")) "__all__" = none :=
  (C9_failure_partial_state failEnv2 () "boom2").2.1 analyzerNS
    (.pyClass "interaction_analyzer" "ProteinInteractionAnalyzer") rfl rfl rfl

/-- C10: after a successful load, `__all__` is exactly the
duplicate-free three-element class-name list, each listed name is bound
by the module, a star-import binds exactly those names, and none of the
metadata constants is among them. -/
theorem C10_all_list {ε ω : Type} (env : ModuleEnv ε) (w : ω) (ns : NS) (w' : ω)
    (h : loadBondForge env w = .ok (ns, w')) :
    lookupA ns "__all__" = some (.strList allList) ∧
    allList.Nodup ∧
    (∀ n ∈ allList, (lookupA ns n).isSome) ∧
    starImportNames ns = allList ∧
    (∀ m ∈ metadataNames, m ∉ allList) := by
  obtain ⟨_, _, _, _, _, _, _, _, _, _, _, _, hns, _⟩ := loadBondForge_ok h
  subst hns
  refine ⟨rfl, by decide, ?_, rfl, by decide⟩
  intro n hn
  fin_cases hn <;> rfl

/-- Witness for C10 at the healthy concrete environment. -/
theorem C10_all_list_witness :
    lookupA sampleNS "__all__" = some (.strList allList) ∧
    allList.Nodup ∧
    (∀ n ∈ allList, (lookupA sampleNS n).isSome) ∧
    starImportNames sampleNS = allList ∧
    (∀ m ∈ metadataNames, m ∉ allList) :=
  C10_all_list sampleEnv () sampleNS () loadBondForge_sample

end BondForge
